import Mathlib

/-!
Verification development for the ctcae-standardizer repository.

The pipeline under study (src/symptom_matcher.py, src/vectorstore.py) is a
retrieval-augmented matcher: two metadata-filtered similarity searches, a
context block assembled from the hits, one language-model completion, and a
JSON extraction step that turns the raw completion into a result dictionary.

External collaborators (the IRIS vector index and the OpenAI chat model) are
modelled as explicit function parameters; Python dictionaries are modelled as
association lists with Python's insertion-order update semantics; Python's
`json.loads` is modelled by an executable fuel-based JSON reader below.
-/

namespace CTCAE

/-- Values a decoded JSON document can take, mirroring the result of Python's
`json.loads`.  Numeric literals are kept as their source lexeme: no code in
the pipeline ever inspects a numeric value, only string values and key
presence, so the lexeme is a faithful representation for this development. -/
inductive JsonVal where
  | null : JsonVal
  | bool (b : Bool) : JsonVal
  | num (raw : String) : JsonVal
  | str (s : String) : JsonVal
  | arr (xs : List JsonVal) : JsonVal
  | obj (kvs : List (String × JsonVal)) : JsonVal

/-- A Python dictionary with string keys, as an association list in insertion
order.  All constructors below keep keys distinct. -/
abbrev PyDict := List (String × JsonVal)

/-- Python `d[k] = v`: replace the value in place when the key exists
(keeping its position), otherwise append the new key at the end. -/
def dict_set (d : PyDict) (k : String) (v : JsonVal) : PyDict :=
  match d with
  | [] => [(k, v)]
  | (k', v') :: rest => if k' = k then (k, v) :: rest else (k', v') :: dict_set rest k v

/-- Python `d.get(k)`: the first binding of the key, if any. -/
def py_lookup (d : PyDict) (k : String) : Option JsonVal :=
  match d with
  | [] => none
  | (k', v) :: rest => if k' = k then some v else py_lookup rest k

/-- Python `k in d`. -/
def has_key (d : PyDict) (k : String) : Prop := py_lookup d k ≠ none

/-- Collapse a raw JSON member list into a Python dictionary: members are
inserted left to right, so a duplicated key keeps its first position and its
last value, exactly as `dict` construction does in CPython. -/
def collapse_members (kvs : List (String × JsonVal)) : PyDict :=
  kvs.foldl (fun d kv => dict_set d kv.1 kv.2) []

/- Character-level helpers shared by the JSON reader and the Python string
operations used in `match_symptom`. -/

/-- JSON insignificant whitespace (RFC 8259): space, tab, newline, carriage
return. -/
def is_json_ws (c : Char) : Bool :=
  c = ' ' || c = '\t' || c = '\n' || c = '\r'

/-- Drop leading JSON whitespace. -/
def skip_ws : List Char → List Char
  | [] => []
  | c :: cs => if is_json_ws c then skip_ws cs else c :: cs

/-- Hexadecimal digit value, when the character is one. -/
def hex_val (c : Char) : Option Nat :=
  if '0' ≤ c ∧ c ≤ '9' then some (c.toNat - 48)
  else if 'a' ≤ c ∧ c ≤ 'f' then some (c.toNat - 97 + 10)
  else if 'A' ≤ c ∧ c ≤ 'F' then some (c.toNat - 65 + 10)
  else none

/-- Decimal digit test. -/
def is_digit (c : Char) : Bool := '0' ≤ c && c ≤ '9'

/-- Longest leading run of decimal digits, with the remaining input. -/
def take_digits : List Char → List Char × List Char
  | [] => ([], [])
  | c :: cs =>
      if is_digit c then
        let p := take_digits cs
        (c :: p.1, p.2)
      else ([], c :: cs)

/-- Body of a JSON string literal after its opening quote: standard escapes,
`\uXXXX` code units (surrogate-pair recombination is not modelled; no
pipeline data contains astral characters), and a strictness check rejecting
raw control characters, as Python's default strict decoder does. -/
def read_string_rest (acc : List Char) : List Char → Option (String × List Char)
  | [] => none
  | '"' :: cs => some (⟨acc.reverse⟩, cs)
  | '\\' :: esc =>
      match esc with
      | '"' :: cs => read_string_rest ('"' :: acc) cs
      | '\\' :: cs => read_string_rest ('\\' :: acc) cs
      | '/' :: cs => read_string_rest ('/' :: acc) cs
      | 'b' :: cs => read_string_rest ('\x08' :: acc) cs
      | 'f' :: cs => read_string_rest ('\x0c' :: acc) cs
      | 'n' :: cs => read_string_rest ('\n' :: acc) cs
      | 'r' :: cs => read_string_rest ('\r' :: acc) cs
      | 't' :: cs => read_string_rest ('\t' :: acc) cs
      | 'u' :: a :: b :: c :: d :: cs =>
          match hex_val a, hex_val b, hex_val c, hex_val d with
          | some ha, some hb, some hc, some hd =>
              read_string_rest (Char.ofNat (((ha * 16 + hb) * 16 + hc) * 16 + hd) :: acc) cs
          | _, _, _, _ => none
      | _ => none
  | c :: cs => if c.toNat < 32 then none else read_string_rest (c :: acc) cs

/-- Strict JSON number lexeme: optional minus, integer part without leading
zeros, optional fraction, optional exponent.  Returns the lexeme and the
remaining input. -/
def read_number (cs : List Char) : Option (String × List Char) :=
  let sign : List Char × List Char :=
    match cs with
    | '-' :: rest => (['-'], rest)
    | _ => ([], cs)
  match sign.2 with
  | [] => none
  | c :: rest =>
      if c = '0' ∨ (is_digit c ∧ c ≠ '0') then
        let ip : List Char × List Char :=
          if c = '0' then (['0'], rest)
          else
            let p := take_digits rest
            (c :: p.1, p.2)
        let fp : Option (List Char × List Char) :=
          match ip.2 with
          | '.' :: fr =>
              match take_digits fr with
              | ([], _) => none
              | (ds, rem) => some ('.' :: ds, rem)
          | other => some ([], other)
        match fp with
        | none => none
        | some f =>
            let ep : Option (List Char × List Char) :=
              match f.2 with
              | 'e' :: er =>
                  let es : List Char × List Char :=
                    match er with
                    | '+' :: t => (['e', '+'], t)
                    | '-' :: t => (['e', '-'], t)
                    | t => (['e'], t)
                  match take_digits es.2 with
                  | ([], _) => none
                  | (ds, rem) => some (es.1 ++ ds, rem)
              | 'E' :: er =>
                  let es : List Char × List Char :=
                    match er with
                    | '+' :: t => (['E', '+'], t)
                    | '-' :: t => (['E', '-'], t)
                    | t => (['E'], t)
                  match take_digits es.2 with
                  | ([], _) => none
                  | (ds, rem) => some (es.1 ++ ds, rem)
              | other => some ([], other)
            match ep with
            | none => none
            | some e => some (⟨sign.1 ++ ip.1 ++ f.1 ++ e.1⟩, e.2)
      else none

/-- What the recursive JSON reader is asked to read next: a single value, the
members of an object after its opening brace, or the elements of an array
after its opening bracket. -/
inductive JTask where
  | value : JTask
  | members : JTask
  | elements : JTask

/-- Intermediate result of the recursive JSON reader, one shape per task. -/
inductive JOut where
  | v (x : JsonVal) : JOut
  | mems (kvs : List (String × JsonVal)) : JOut
  | elems (xs : List JsonVal) : JOut

/-- Fuel-based recursive JSON reader.  The fuel only bounds nesting depth;
`json_loads` supplies more fuel than any input can consume. -/
def read_json : Nat → JTask → List Char → Option (JOut × List Char)
  | 0, _, _ => none
  | fuel + 1, JTask.value, cs =>
      match skip_ws cs with
      | '{' :: rest =>
          match skip_ws rest with
          | '}' :: rest2 => some (JOut.v (JsonVal.obj []), rest2)
          | _ =>
              match read_json fuel JTask.members rest with
              | some (JOut.mems kvs, rest2) => some (JOut.v (JsonVal.obj (collapse_members kvs)), rest2)
              | _ => none
      | '[' :: rest =>
          match skip_ws rest with
          | ']' :: rest2 => some (JOut.v (JsonVal.arr []), rest2)
          | _ =>
              match read_json fuel JTask.elements rest with
              | some (JOut.elems xs, rest2) => some (JOut.v (JsonVal.arr xs), rest2)
              | _ => none
      | '"' :: rest =>
          match read_string_rest [] rest with
          | some (s, rest2) => some (JOut.v (JsonVal.str s), rest2)
          | none => none
      | 't' :: 'r' :: 'u' :: 'e' :: rest => some (JOut.v (JsonVal.bool true), rest)
      | 'f' :: 'a' :: 'l' :: 's' :: 'e' :: rest => some (JOut.v (JsonVal.bool false), rest)
      | 'n' :: 'u' :: 'l' :: 'l' :: rest => some (JOut.v JsonVal.null, rest)
      | other =>
          match read_number other with
          | some (lex, rest) => some (JOut.v (JsonVal.num lex), rest)
          | none => none
  | fuel + 1, JTask.members, cs =>
      match skip_ws cs with
      | '"' :: rest =>
          match read_string_rest [] rest with
          | some (key, rest1) =>
              match skip_ws rest1 with
              | ':' :: rest2 =>
                  match read_json fuel JTask.value rest2 with
                  | some (JOut.v v, rest3) =>
                      match skip_ws rest3 with
                      | ',' :: rest4 =>
                          match read_json fuel JTask.members rest4 with
                          | some (JOut.mems kvs, rest5) => some (JOut.mems ((key, v) :: kvs), rest5)
                          | _ => none
                      | '}' :: rest4 => some (JOut.mems [(key, v)], rest4)
                      | _ => none
                  | _ => none
              | _ => none
          | none => none
      | _ => none
  | fuel + 1, JTask.elements, cs =>
      match read_json fuel JTask.value cs with
      | some (JOut.v v, rest) =>
          match skip_ws rest with
          | ',' :: rest2 =>
              match read_json fuel JTask.elements rest2 with
              | some (JOut.elems xs, rest3) => some (JOut.elems (v :: xs), rest3)
              | _ => none
          | ']' :: rest2 => some (JOut.elems [v], rest2)
          | _ => none
      | _ => none

/-- Model of Python `json.loads`: read one value and require the rest of the
input to be whitespace, as the strict decoder does. -/
def json_loads (s : String) : Option JsonVal :=
  match read_json (2 * s.length + 4) JTask.value s.toList with
  | some (JOut.v v, rest) => if skip_ws rest = [] then some v else none
  | _ => none

/-- Model of `json.loads` restricted to objects.  In `match_symptom` the
parsed text always starts with a brace, so a successful `json.loads` there
necessarily yields a dictionary; other top-level values are mapped to
`none` like a parse failure, a branch that call site cannot reach. -/
def json_loads_obj (s : String) : Option PyDict :=
  match json_loads s with
  | some (JsonVal.obj kvs) => some kvs
  | _ => none

/- Python string operations used by `match_symptom` (src/symptom_matcher.py,
lines 133-140). -/

/-- ASCII whitespace stripped by Python `str.strip()` (the further Unicode
space characters Python also strips never occur in this pipeline's data). -/
def is_py_space (c : Char) : Bool :=
  c = ' ' || c = '\t' || c = '\n' || c = '\r' || c = '\x0b' || c = '\x0c'

/-- Drop leading Python whitespace from a character list. -/
def drop_space : List Char → List Char
  | [] => []
  | c :: cs => if is_py_space c then drop_space cs else c :: cs

/-- Python `s.strip()`. -/
def py_strip (s : String) : String :=
  ⟨(drop_space (drop_space s.toList).reverse).reverse⟩

/-- Index of the first occurrence of a character in a list, if any. -/
def idx_of : List Char → Char → Option Nat
  | [], _ => none
  | c :: cs, t => if c = t then some 0 else (idx_of cs t).map (· + 1)

/-- Python `s.find(c)`, with `None` in place of the sentinel `-1`. -/
def py_find (s : String) (c : Char) : Option Nat := idx_of s.toList c

/-- Python `s.rfind(c)`, with `None` in place of the sentinel `-1`. -/
def py_rfind (s : String) (c : Char) : Option Nat :=
  match idx_of s.toList.reverse c with
  | some i => some (s.toList.length - 1 - i)
  | none => none

/-- Python `s[a:b]` for nonnegative bounds. -/
def py_slice (s : String) (a b : Nat) : String := ⟨(s.toList.drop a).take (b - a)⟩

/- Similarity-score formatting.  The backend's scores are modelled as
rationals; Python's `f"..{score:.4f}"` is modelled as rounding to four
decimal digits with ties to even, the rounding `%.4f` applies. -/

/-- Nearest integer with ties to even. -/
def round_half_even (q : ℚ) : ℤ :=
  if q - ⌊q⌋ < 1 / 2 then ⌊q⌋
  else if q - ⌊q⌋ > 1 / 2 then ⌊q⌋ + 1
  else if ⌊q⌋ % 2 = 0 then ⌊q⌋ else ⌊q⌋ + 1

/-- Character for a decimal digit. -/
def digit_char (n : Nat) : Char := Char.ofNat (48 + n % 10)

/-- Exactly four decimal digits for a number below 10000. -/
def frac4 (n : Nat) : String :=
  ⟨[digit_char (n / 1000), digit_char (n / 100), digit_char (n / 10), digit_char n]⟩

/-- Model of `f"{score:.4f}"` on a rational score. -/
def format4 (q : ℚ) : String :=
  let m := (round_half_even (|q| * 10000)).toNat
  let sign := if q < 0 then "-" else ""
  sign ++ Nat.repr (m / 10000) ++ "." ++ frac4 (m % 10000)

/- The retrievable documents and the two search calls
(src/vectorstore.py, src/symptom_matcher.py). -/

/-- A langchain `Document`: page content plus string-valued metadata.  The
metadata dictionaries built by this pipeline only hold string values. -/
structure Document where
  page_content : String
  metadata : List (String × String)
deriving DecidableEq

/-- Python `metadata.get(k)` on a string-valued dictionary. -/
def meta_get (md : List (String × String)) (k : String) : Option String :=
  match md with
  | [] => none
  | (k', v) :: rest => if k' = k then some v else meta_get rest k

/-- Python f-string rendering of a possibly missing value: `None` prints as
the string `"None"`. -/
def opt_str : Option String → String
  | some s => s
  | none => "None"

/-- A scored search hit as returned by `similarity_search_with_score`. -/
abbrev SearchHit := Document × ℚ

/-- The index backend's `similarity_search_with_score`, an external
collaborator: a query, a count and a metadata filter give either hits or a
raised error. -/
abbrev SimSearch := String → Nat → Option (List (String × String)) → Except String (List SearchHit)

/-- Model of `search_term_store` (src/vectorstore.py, lines 200-227): call
the backend and turn any raised error into an empty hit list. -/
def search_term_store (backend : SimSearch) (query : String) (k : Nat)
    (filter_dict : Option (List (String × String))) : List SearchHit :=
  match backend query k filter_dict with
  | Except.ok results => results
  | Except.error _ => []

/-- One context block per hit (src/symptom_matcher.py, lines 106-122): the
branch on the `doc_type` metadata selects the term-shaped or grade-shaped
block, each ending with the similarity score at four decimal places. -/
def render_hit (hit : SearchHit) : String :=
  let metadata := hit.1.metadata
  if meta_get metadata "doc_type" = some "term" then
    "CTCAE Term: " ++ opt_str (meta_get metadata "ctcae_term") ++ "\n" ++
    "MedDRA SOC: " ++ opt_str (meta_get metadata "meddra_soc") ++ "\n" ++
    "Definition: " ++ opt_str (meta_get metadata "definition") ++ "\n" ++
    "Similarity: " ++ format4 hit.2
  else
    "CTCAE Term: " ++ opt_str (meta_get metadata "ctcae_term") ++ "\n" ++
    "Grade: " ++ opt_str (meta_get metadata "grade") ++ "\n" ++
    "Description: " ++ opt_str (meta_get metadata "description") ++ "\n" ++
    "Similarity: " ++ format4 hit.2

/-- Context assembly (src/symptom_matcher.py, lines 100-124): term hits then
grade hits, one block each, blocks joined by a blank line. -/
def assemble_context (term_results grade_results : List SearchHit) : String :=
  let all_results := term_results ++ grade_results
  let context_parts := all_results.map render_hit
  String.intercalate "\n\n" context_parts

/- The result dictionaries `match_symptom` can return
(src/symptom_matcher.py, lines 139-169). -/

/-- Value stored under the `details` key of the failure dictionaries:
`details if details else None`. -/
def details_or_none (details : String) : JsonVal :=
  if details ≠ "" then JsonVal.str details else JsonVal.null

/-- Success variant: the parsed dictionary with `original_symptom` set and,
when `details` is truthy, `details` set (lines 143-150). -/
def inject_result (symptom details : String) (kvs : PyDict) : PyDict :=
  let r := dict_set kvs "original_symptom" (JsonVal.str symptom)
  if details ≠ "" then dict_set r "details" (JsonVal.str details) else r

/-- Parse-failure variant (lines 156-161). -/
def parse_failure (symptom details response : String) : PyDict :=
  [("original_symptom", JsonVal.str symptom),
   ("details", details_or_none details),
   ("error", JsonVal.str "Failed to parse LLM response as JSON"),
   ("raw_response", JsonVal.str response)]

/-- Generation-failure variant (lines 163-169): the caught exception's
message and no `raw_response` key. -/
def gen_failure (symptom details err : String) : PyDict :=
  [("original_symptom", JsonVal.str symptom),
   ("details", details_or_none details),
   ("error", JsonVal.str err)]

/-- The language-model completion `chain.run(symptom, details, context)`, an
external collaborator: either the raw completion text or a raised error. -/
abbrev GenFn := String → String → String → Except String String

/-- Brace extraction and JSON decoding of a raw completion
(src/symptom_matcher.py, lines 133-161): strip, locate first brace and last
closing brace, decode the inclusive slice, fall back to the parse-failure
dictionary built from the stripped response. -/
def parse_llm_response (symptom details raw : String) : PyDict :=
  let response := py_strip raw
  match py_find response '{' with
  | some start_idx =>
      match py_rfind response '}' with
      | some end_idx =>
          if end_idx > start_idx then
            let json_str := py_slice response start_idx (end_idx + 1)
            match json_loads_obj json_str with
            | some result => inject_result symptom details result
            | none => parse_failure symptom details response
          else parse_failure symptom details response
      | none => parse_failure symptom details response
  | none => parse_failure symptom details response

/-- Arguments of one `search_term_store` call. -/
structure SearchCall where
  query : String
  k : Nat
  filter_dict : Option (List (String × String))
deriving DecidableEq

/-- Model of `SymptomMatcher.match_symptom` (src/symptom_matcher.py, lines
69-169) paired with the trace of retrieval calls it issues, in order: the
term search (k=3) on the symptom alone, the grade search (k=5) on symptom
and details joined by a space, context assembly, one completion call, then
response parsing with its two failure fallbacks. -/
def match_symptom_traced (backend : SimSearch) (gen : GenFn) (symptom details : String) :
    PyDict × List SearchCall :=
  let call1 : SearchCall := ⟨symptom, 3, some [("doc_type", "term")]⟩
  let term_results := search_term_store backend call1.query call1.k call1.filter_dict
  let call2 : SearchCall := ⟨symptom ++ " " ++ details, 5, some [("doc_type", "grade_description")]⟩
  let grade_results := search_term_store backend call2.query call2.k call2.filter_dict
  let context := assemble_context term_results grade_results
  let result :=
    match gen symptom details context with
    | Except.ok response => parse_llm_response symptom details response
    | Except.error e => gen_failure symptom details e
  (result, [call1, call2])

/-- The dictionary `match_symptom` returns. -/
def match_symptom (backend : SimSearch) (gen : GenFn) (symptom details : String) : PyDict :=
  (match_symptom_traced backend gen symptom details).1

/- The Indexer (src/vectorstore.py, lines 36-197): document construction
from term records, batched writes, and collection reset. -/

/-- One grade entry of a term record, as produced by the ingestion step
(scripts/process_ctcae.py writes `grade` as the digit string "1".."5" and a
non-empty `description`; the fields here are the raw dictionary values). -/
structure GradeRec where
  grade : String
  description : String
deriving DecidableEq

/-- One term record consumed by `add_terms_to_vectorstore`; fields mirror
the keys read with `term.get(key, "")`, so a missing key is the empty
string. -/
structure TermRec where
  ctcae_term : String
  meddra_soc : String
  definition : String
  meddra_code : String
  grades : List GradeRec
deriving DecidableEq

/-- The `"term"` document built for a term record (src/vectorstore.py,
lines 140-154). -/
def term_doc (t : TermRec) : Document :=
  { page_content :=
      "CTCAE Term: " ++ t.ctcae_term ++ "\n" ++
      "Definition: " ++ t.definition ++ "\n" ++
      "Category: " ++ t.meddra_soc
    metadata :=
      [("ctcae_term", t.ctcae_term),
       ("meddra_soc", t.meddra_soc),
       ("definition", t.definition),
       ("meddra_code", t.meddra_code),
       ("doc_type", "term")] }

/-- The `"grade_description"` document built for one grade entry, skipped
when the grade number or the description is falsy (src/vectorstore.py,
lines 157-177). -/
def grade_doc (t : TermRec) (g : GradeRec) : Option Document :=
  if g.grade ≠ "" ∧ g.description ≠ "" then
    some
      { page_content :=
          "CTCAE Term: " ++ t.ctcae_term ++ " - Grade " ++ g.grade ++ "\n" ++
          "Description: " ++ g.description ++ "\n" ++
          "Category: " ++ t.meddra_soc
        metadata :=
          [("ctcae_term", t.ctcae_term),
           ("grade", g.grade),
           ("description", g.description),
           ("meddra_soc", t.meddra_soc),
           ("doc_type", "grade_description")] }
  else none

/-- All documents built for one term record: nothing when the term name is
falsy, otherwise its term document followed by one document per grade that
passes the `grade and description` check. -/
def docs_for_term (t : TermRec) : List Document :=
  if t.ctcae_term = "" then []
  else term_doc t :: t.grades.filterMap (grade_doc t)

/-- The full document list the Indexer builds (src/vectorstore.py,
lines 132-177), in construction order. -/
def build_documents (terms : List TermRec) : List Document :=
  terms.flatMap docs_for_term

/-- Consecutive batches of at most `100` documents, the slices taken by the
write loop (src/vectorstore.py, lines 182-191); the fuel argument only
bounds recursion and is at least the list length at every use. -/
def chunks_of_100 : Nat → List Document → List (List Document)
  | 0, _ => []
  | _, [] => []
  | fuel + 1, ds => ds.take 100 :: chunks_of_100 fuel (ds.drop 100)

/-- All batches of the write loop. -/
def batches (ds : List Document) : List (List Document) := chunks_of_100 ds.length ds

/-- The index backend's stateful operations, an external collaborator over
an abstract store state: each either returns the next state or raises.  An
operation that raises is modelled as leaving the state unchanged. -/
structure StoreOps (σ : Type) where
  delete_collection : σ → Except String σ
  from_documents : σ → List Document → Except String σ
  delete_ids : σ → List String → Except String σ
  add_documents : σ → List Document → Except String σ

/-- The initialization document `setup_vector_store` seeds a fresh
collection with (src/vectorstore.py, line 89). -/
def init_document : Document := { page_content := "Initialization document", metadata := [] }

/-- Model of `setup_vector_store` with `reset_collection=True`
(src/vectorstore.py, lines 71-114): try to delete the collection (errors
swallowed), create a fresh store from the initialization document, try to
remove that document again (errors swallowed); when creation raises,
connect to the existing store instead. -/
def setup_vector_store_reset {σ : Type} (ops : StoreOps σ) (s : σ) : σ :=
  let s1 :=
    match ops.delete_collection s with
    | Except.ok t => t
    | Except.error _ => s
  match ops.from_documents s1 [init_document] with
  | Except.ok t =>
      match ops.delete_ids t ["Initialization document"] with
      | Except.ok u => u
      | Except.error _ => t
  | Except.error _ => s1

/-- Model of `add_terms_to_vectorstore` (src/vectorstore.py, lines
121-197): build all documents, write them in batches of 100, count only the
batches whose write succeeded, and never abort on a failed batch.  Returns
the count together with the final store state. -/
def add_terms_to_vectorstore {σ : Type} (ops : StoreOps σ) (s : σ) (terms : List TermRec) :
    Nat × σ :=
  let documents := build_documents terms
  (batches documents).foldl
    (fun acc batch =>
      match ops.add_documents acc.2 batch with
      | Except.ok s' => (acc.1 + batch.length, s')
      | Except.error _ => acc)
    (0, s)

/-- One indexing run with reset, as scripts/create_vector_store.py performs
it: `setup_vector_store(reset_collection=True)` followed by
`add_terms_to_vectorstore`. -/
def index_with_reset {σ : Type} (ops : StoreOps σ) (s : σ) (terms : List TermRec) : Nat × σ :=
  add_terms_to_vectorstore ops (setup_vector_store_reset ops s) terms

/- Derived notions and concrete fixtures used by the statements below. -/

/-- The context string handed to the completion call for given backend and
inputs: the term search (k=3, term filter) then the grade search (k=5,
grade filter), assembled. -/
def pipeline_context (backend : SimSearch) (symptom details : String) : String :=
  assemble_context
    (search_term_store backend symptom 3 (some [("doc_type", "term")]))
    (search_term_store backend (symptom ++ " " ++ details) 5 (some [("doc_type", "grade_description")]))

/-- A returned dictionary is one of the three shapes `match_symptom` can
build: the success variant, the parse-failure variant, or the
generation-failure variant. -/
def is_match_result (symptom details : String) (r : PyDict) : Prop :=
  (∃ kvs, r = inject_result symptom details kvs) ∨
  (∃ raw, r = parse_failure symptom details raw) ∨
  (∃ msg, r = gen_failure symptom details msg)

/-- A backend whose searches always succeed with zero hits. -/
def zero_hit_backend : SimSearch := fun _ _ _ => Except.ok []

/-- A backend whose searches always raise. -/
def raising_backend : SimSearch := fun _ _ _ => Except.error "backend down"

/-- A completion returning the spec's prose-wrapped JSON example. -/
def gen_wrapped_json : GenFn := fun _ _ _ =>
  Except.ok "Sure, here you go: \x7b\"ctcae_term\": \"Nausea\", \"grade\": \"2\"\x7d Thanks!"

/-- A completion returning the spec's brace-free refusal example. -/
def gen_no_match : GenFn := fun _ _ _ => Except.ok "I cannot determine a match."

/-- A completion returning brace-free text padded with whitespace. -/
def gen_padded_text : GenFn := fun _ _ _ => Except.ok " no braces here "

/-- A completion whose JSON output itself carries an `error` key. -/
def gen_error_key : GenFn := fun _ _ _ => Except.ok "\x7b\"error\": \"oops\"\x7d"

/-- A completion whose JSON output itself carries a `details` key. -/
def gen_details_key : GenFn := fun _ _ _ => Except.ok "\x7b\"details\": \"x\"\x7d"

/-- A completion that raises. -/
def gen_raising : GenFn := fun _ _ _ => Except.error "completion timed out"

/-- A concrete term record with two gradable descriptions and one empty
one. -/
def sample_term : TermRec :=
  { ctcae_term := "Nausea"
    meddra_soc := "Gastrointestinal disorders"
    definition := "A disorder characterized by a queasy sensation."
    meddra_code := "10028813"
    grades := [⟨"1", "Loss of appetite"⟩, ⟨"2", ""⟩, ⟨"3", "Inadequate intake"⟩] }

/-- An in-memory index backend over the plain list of stored documents, with
every operation succeeding. -/
def list_store_ops : StoreOps (List Document) :=
  { delete_collection := fun _ => Except.ok []
    from_documents := fun s ds => Except.ok (s ++ ds)
    delete_ids := fun s ids => Except.ok (s.filter (fun d => ¬ d.page_content ∈ ids))
    add_documents := fun s ds => Except.ok (s ++ ds) }

/- Dictionary lemmas shared by several statements below. -/

/-- Setting a key makes it present with the given value. -/
theorem py_lookup_dict_set_self (d : PyDict) (k : String) (v : JsonVal) :
    py_lookup (dict_set d k v) k = some v := by
  induction d with
  | nil => simp [dict_set, py_lookup]
  | cons kv rest ih =>
      by_cases h : kv.1 = k <;> simp [dict_set, py_lookup, h, ih]

/-- Setting one key leaves every other key's binding unchanged. -/
theorem py_lookup_dict_set_ne (d : PyDict) (k k' : String) (v : JsonVal) (h : k' ≠ k) :
    py_lookup (dict_set d k v) k' = py_lookup d k' := by
  induction d with
  | nil =>
      simp only [dict_set, py_lookup]
      rw [if_neg (fun e => h e.symm)]
  | cons kv rest ih =>
      obtain ⟨k0, v0⟩ := kv
      simp only [dict_set]
      by_cases hk : k0 = k
      · subst hk
        rw [if_pos rfl]
        simp only [py_lookup]
        rw [if_neg (fun e => h e.symm), if_neg (fun e => h e.symm)]
      · rw [if_neg hk]
        simp only [py_lookup]
        by_cases hk' : k0 = k'
        · rw [if_pos hk', if_pos hk']
        · rw [if_neg hk', if_neg hk']
          exact ih

/-- The success variant always binds `original_symptom` to the input
symptom. -/
theorem inject_result_orig (symptom details : String) (kvs : PyDict) :
    py_lookup (inject_result symptom details kvs) "original_symptom" = some (JsonVal.str symptom) := by
  simp only [inject_result]
  by_cases h : details = ""
  · rw [if_neg (fun hd => hd h)]
    exact py_lookup_dict_set_self _ _ _
  · rw [if_pos h]
    rw [py_lookup_dict_set_ne _ _ _ _ (by decide)]
    exact py_lookup_dict_set_self _ _ _

/-- The success variant leaves keys other than `original_symptom` and
`details` exactly as the decoded object bound them. -/
theorem inject_result_other (symptom details : String) (kvs : PyDict) (k : String)
    (h1 : k ≠ "original_symptom") (h2 : k ≠ "details") :
    py_lookup (inject_result symptom details kvs) k = py_lookup kvs k := by
  simp only [inject_result]
  by_cases h : details = ""
  · rw [if_neg (fun hd => hd h)]
    exact py_lookup_dict_set_ne _ _ _ _ h1
  · rw [if_pos h]
    rw [py_lookup_dict_set_ne _ _ _ _ h2]
    exact py_lookup_dict_set_ne _ _ _ _ h1

/-- With truthy details the success variant binds `details` to them. -/
theorem inject_result_details (symptom details : String) (kvs : PyDict) (h : details ≠ "") :
    py_lookup (inject_result symptom details kvs) "details" = some (JsonVal.str details) := by
  simp only [inject_result]
  rw [if_pos h]
  exact py_lookup_dict_set_self _ _ _

/-- C2. Every call to `match_symptom` issues exactly two retrieval
searches: first the symptom alone with k=3 filtered to `term` documents,
then the symptom and details joined by one space with k=5 filtered to
`grade_description` documents; with empty details the second query is the
symptom followed by a trailing space. -/
theorem two_retrieval_calls (backend : SimSearch) (gen : GenFn) (symptom details : String) :
    (match_symptom_traced backend gen symptom details).2 =
      [⟨symptom, 3, some [("doc_type", "term")]⟩,
       ⟨symptom ++ " " ++ details, 5, some [("doc_type", "grade_description")]⟩] ∧
    (match_symptom_traced backend gen symptom "").2.map SearchCall.query =
      [symptom, symptom ++ " "] := by
  constructor
  · rfl
  · show [symptom, symptom ++ " " ++ ""] = [symptom, symptom ++ " "]
    simp [String.append_empty]

/-- C6. When the index backend's similarity search raises,
`search_term_store` returns the empty hit list instead of propagating the
error. -/
theorem search_error_yields_empty (backend : SimSearch) (query : String) (k : Nat)
    (filter_dict : Option (List (String × String))) (msg : String)
    (h : backend query k filter_dict = Except.error msg) :
    search_term_store backend query k filter_dict = [] := by
  unfold search_term_store
  rw [h]

/-- Witness for C6 at a backend that always raises. -/
theorem search_error_yields_empty_witness :
    search_term_store raising_backend "severe headache" 3 (some [("doc_type", "term")]) = [] :=
  search_error_yields_empty raising_backend "severe headache" 3 (some [("doc_type", "term")])
    "backend down" rfl

/-- C7. The assembled context is the term blocks (in returned order)
followed by the grade blocks (in returned order) joined by one blank line;
each block ends with the similarity score, which always renders with
exactly four decimal digits; empty hit lists contribute no blocks and two
empty lists give the empty context. -/
theorem context_assembly_structure :
    (∀ term_results grade_results : List SearchHit,
       assemble_context term_results grade_results =
         String.intercalate "\n\n" (term_results.map render_hit ++ grade_results.map render_hit)) ∧
    (∀ hit : SearchHit, ∃ pre, render_hit hit = pre ++ "Similarity: " ++ format4 hit.2) ∧
    (∀ q : ℚ, ∃ ip fr, format4 q = ip ++ "." ++ fr ∧ fr.length = 4) ∧
    (∀ grade_results, assemble_context [] grade_results =
       String.intercalate "\n\n" (grade_results.map render_hit)) ∧
    assemble_context [] [] = "" := by
  refine ⟨?_, ?_, ?_, ?_, rfl⟩
  · intro th gh
    simp only [assemble_context, List.map_append]
  · intro hit
    simp only [render_hit]
    split
    · exact ⟨_, rfl⟩
    · exact ⟨_, rfl⟩
  · intro q
    refine ⟨(if q < 0 then "-" else "") ++ Nat.repr ((round_half_even (|q| * 10000)).toNat / 10000),
      frac4 ((round_half_even (|q| * 10000)).toNat % 10000), rfl, rfl⟩
  · intro gh
    simp only [assemble_context, List.nil_append]

/-- A successfully decoded brace slice yields the injected success
dictionary. -/
theorem parse_llm_response_success (symptom details raw : String) (i j : Nat) (kvs : PyDict)
    (hf : py_find (py_strip raw) '{' = some i)
    (hr : py_rfind (py_strip raw) '}' = some j)
    (hij : j > i)
    (hjson : json_loads_obj (py_slice (py_strip raw) i (j + 1)) = some kvs) :
    parse_llm_response symptom details raw = inject_result symptom details kvs := by
  simp only [parse_llm_response, hf, hr, if_pos hij, hjson]

/-- Every parsed completion yields either the injected success dictionary
or the parse-failure dictionary built from the stripped response. -/
theorem parse_llm_response_shape (symptom details raw : String) :
    (∃ kvs, parse_llm_response symptom details raw = inject_result symptom details kvs) ∨
    parse_llm_response symptom details raw = parse_failure symptom details (py_strip raw) := by
  simp only [parse_llm_response]
  split
  · split
    · split
      · split
        · exact Or.inl ⟨_, rfl⟩
        · exact Or.inr rfl
      · exact Or.inr rfl
    · exact Or.inr rfl
  · exact Or.inr rfl

/-- Either branch of the completion call yields one of the three result
shapes. -/
theorem match_symptom_shape_aux (symptom details : String) (g : Except String String) :
    is_match_result symptom details
      (match g with
       | Except.ok response => parse_llm_response symptom details response
       | Except.error e => gen_failure symptom details e) := by
  cases g with
  | ok response =>
      rcases parse_llm_response_shape symptom details response with ⟨kvs, h⟩ | h
      · exact Or.inl ⟨kvs, h⟩
      · exact Or.inr (Or.inl ⟨py_strip response, h⟩)
  | error e => exact Or.inr (Or.inr ⟨e, rfl⟩)

/-- C1. `match_symptom` always returns one of the MatchResult shapes —
success, parse failure, or generation failure — and never propagates an
error; in particular it still returns such a dictionary when both
retrieval searches return zero hits. -/
theorem match_always_returns_result (backend : SimSearch) (gen : GenFn) (symptom details : String) :
    is_match_result symptom details (match_symptom backend gen symptom details) ∧
    (search_term_store backend symptom 3 (some [("doc_type", "term")]) = [] →
     search_term_store backend (symptom ++ " " ++ details) 5
         (some [("doc_type", "grade_description")]) = [] →
     is_match_result symptom details (match_symptom backend gen symptom details)) := by
  refine ⟨?_, fun _ _ => ?_⟩ <;>
    exact match_symptom_shape_aux symptom details
      (gen symptom details (pipeline_context backend symptom details))

/-- Witness for C1: both searches of a concrete backend return zero hits
and the call still produces a MatchResult shape. -/
theorem match_always_returns_result_witness :
    is_match_result "severe headache with nausea" ""
      (match_symptom zero_hit_backend gen_no_match "severe headache with nausea" "") :=
  (match_always_returns_result zero_hit_backend gen_no_match "severe headache with nausea" "").2
    rfl rfl

/-- C4. When the completion succeeds and its stripped text has a first
brace strictly before a last closing brace, `match_symptom` decodes exactly
the inclusive slice between those positions; on success it returns that
decoded object with `original_symptom` set to the input symptom and, for
truthy details, a `details` field added.  The spec's prose-wrapped example
text decodes to `ctcae_term` "Nausea" and `grade` "2". -/
theorem parser_success_extraction :
    (∀ (backend : SimSearch) (gen : GenFn) (symptom details raw : String) (i j : Nat) (kvs : PyDict),
       gen symptom details (pipeline_context backend symptom details) = Except.ok raw →
       py_find (py_strip raw) '{' = some i →
       py_rfind (py_strip raw) '}' = some j →
       j > i →
       json_loads_obj (py_slice (py_strip raw) i (j + 1)) = some kvs →
       match_symptom backend gen symptom details = inject_result symptom details kvs) ∧
    (∀ symptom details kvs,
       py_lookup (inject_result symptom details kvs) "original_symptom"
         = some (JsonVal.str symptom)) ∧
    (∀ symptom details kvs, details ≠ "" →
       py_lookup (inject_result symptom details kvs) "details" = some (JsonVal.str details)) ∧
    py_lookup (match_symptom zero_hit_backend gen_wrapped_json "severe headache with nausea" "")
        "ctcae_term" = some (JsonVal.str "Nausea") ∧
    py_lookup (match_symptom zero_hit_backend gen_wrapped_json "severe headache with nausea" "")
        "grade" = some (JsonVal.str "2") := by
  refine ⟨?_, inject_result_orig, inject_result_details, rfl, rfl⟩
  intro backend gen symptom details raw i j kvs hgen hf hr hij hjson
  show (match gen symptom details (pipeline_context backend symptom details) with
        | Except.ok response => parse_llm_response symptom details response
        | Except.error e => gen_failure symptom details e) = inject_result symptom details kvs
  rw [hgen]
  exact parse_llm_response_success symptom details raw i j kvs hf hr hij hjson

/-- Witness for C4: the general extraction statement applied to the spec's
prose-wrapped completion. -/
theorem parser_success_extraction_witness :
    match_symptom zero_hit_backend gen_wrapped_json "severe headache with nausea" "" =
      inject_result "severe headache with nausea" ""
        [("ctcae_term", JsonVal.str "Nausea"), ("grade", JsonVal.str "2")] :=
  parser_success_extraction.1 zero_hit_backend gen_wrapped_json "severe headache with nausea" ""
    "Sure, here you go: \x7b\"ctcae_term\": \"Nausea\", \"grade\": \"2\"\x7d Thanks!" 19 56
    [("ctcae_term", JsonVal.str "Nausea"), ("grade", JsonVal.str "2")]
    rfl rfl rfl (by decide) rfl

/-- C5 (amended). When the completion text yields no usable brace pair, or
the brace slice fails to decode, `match_symptom` returns the parse-failure
variant carrying `original_symptom`, `details` (null when empty), the fixed
error message, and the completion text stripped of surrounding whitespace;
when the completion call itself raises, it returns the failure variant
carrying the exception's message and no `raw_response` key. -/
theorem parse_failure_semantics :
    (∀ (backend : SimSearch) (gen : GenFn) (symptom details raw : String),
       gen symptom details (pipeline_context backend symptom details) = Except.ok raw →
       match_symptom backend gen symptom details = parse_llm_response symptom details raw) ∧
    (∀ symptom details raw, py_find (py_strip raw) '{' = none →
       parse_llm_response symptom details raw = parse_failure symptom details (py_strip raw)) ∧
    (∀ symptom details raw, py_rfind (py_strip raw) '}' = none →
       parse_llm_response symptom details raw = parse_failure symptom details (py_strip raw)) ∧
    (∀ symptom details raw i j, py_find (py_strip raw) '{' = some i →
       py_rfind (py_strip raw) '}' = some j → ¬ j > i →
       parse_llm_response symptom details raw = parse_failure symptom details (py_strip raw)) ∧
    (∀ symptom details raw i j, py_find (py_strip raw) '{' = some i →
       py_rfind (py_strip raw) '}' = some j → j > i →
       json_loads_obj (py_slice (py_strip raw) i (j + 1)) = none →
       parse_llm_response symptom details raw = parse_failure symptom details (py_strip raw)) ∧
    (∀ symptom details raw,
       py_lookup (parse_failure symptom details raw) "error"
           = some (JsonVal.str "Failed to parse LLM response as JSON") ∧
       py_lookup (parse_failure symptom details raw) "raw_response" = some (JsonVal.str raw) ∧
       py_lookup (parse_failure symptom details raw) "original_symptom"
           = some (JsonVal.str symptom)) ∧
    (∀ (backend : SimSearch) (gen : GenFn) (symptom details msg : String),
       gen symptom details (pipeline_context backend symptom details) = Except.error msg →
       match_symptom backend gen symptom details = gen_failure symptom details msg) ∧
    (∀ symptom details msg,
       py_lookup (gen_failure symptom details msg) "error" = some (JsonVal.str msg) ∧
       py_lookup (gen_failure symptom details msg) "raw_response" = none) ∧
    match_symptom zero_hit_backend gen_no_match "severe headache with nausea" "" =
      parse_failure "severe headache with nausea" "" "I cannot determine a match." := by
  refine ⟨?_, ?_, ?_, ?_, ?_, fun _ _ _ => ⟨rfl, rfl, rfl⟩, ?_, fun _ _ _ => ⟨rfl, rfl⟩, rfl⟩
  · intro backend gen symptom details raw hgen
    show (match gen symptom details (pipeline_context backend symptom details) with
          | Except.ok response => parse_llm_response symptom details response
          | Except.error e => gen_failure symptom details e) = parse_llm_response symptom details raw
    rw [hgen]
  · intro symptom details raw hf
    simp only [parse_llm_response, hf]
  · intro symptom details raw hr
    rcases hf : py_find (py_strip raw) '{' with _ | i
    · simp only [parse_llm_response, hf]
    · simp only [parse_llm_response, hf, hr]
  · intro symptom details raw i j hf hr hij
    simp only [parse_llm_response, hf, hr, if_neg hij]
  · intro symptom details raw i j hf hr hij hjson
    simp only [parse_llm_response, hf, hr, if_pos hij, hjson]
  · intro backend gen symptom details msg hgen
    show (match gen symptom details (pipeline_context backend symptom details) with
          | Except.ok response => parse_llm_response symptom details response
          | Except.error e => gen_failure symptom details e) = gen_failure symptom details msg
    rw [hgen]

/-- Counterexample for C5 as frozen: with completion text padded by
whitespace and holding no brace, the failure variant's `raw_response` is
the stripped text, not the raw completion text itself. -/
theorem parse_failure_raw_is_stripped_cex :
    match_symptom zero_hit_backend gen_padded_text "sym" ""
        = parse_failure "sym" "" "no braces here" ∧
    py_lookup (match_symptom zero_hit_backend gen_padded_text "sym" "") "raw_response"
      = some (JsonVal.str "no braces here") ∧
    ("no braces here" : String) ≠ " no braces here " :=
  ⟨rfl, rfl, by decide⟩

/-- Witness for C5: the brace-free refusal text takes the parse-failure
branch. -/
theorem parse_failure_semantics_witness :
    parse_llm_response "sym" "" "I cannot determine a match."
      = parse_failure "sym" "" "I cannot determine a match." :=
  parse_failure_semantics.2.1 "sym" "" "I cannot determine a match." rfl

/-- C8 (amended). Both failure variants always carry an `error` key, and
the success variant carries an `error` key exactly when the decoded model
output itself did — so discriminating success from failure by the presence
of `error` is sound only for decoded outputs without their own `error`
key. -/
theorem error_field_discrimination :
    (∀ symptom details raw, py_lookup (parse_failure symptom details raw) "error" ≠ none) ∧
    (∀ symptom details msg, py_lookup (gen_failure symptom details msg) "error" ≠ none) ∧
    (∀ symptom details kvs, py_lookup kvs "error" = none →
       py_lookup (inject_result symptom details kvs) "error" = none) ∧
    (∀ symptom details kvs v, py_lookup kvs "error" = some v →
       py_lookup (inject_result symptom details kvs) "error" = some v) := by
  refine ⟨fun _ _ _ => by simp [parse_failure, py_lookup],
    fun _ _ _ => by simp [gen_failure, py_lookup], ?_, ?_⟩
  · intro symptom details kvs h
    rw [inject_result_other symptom details kvs "error" (by decide) (by decide)]
    exact h
  · intro symptom details kvs v h
    rw [inject_result_other symptom details kvs "error" (by decide) (by decide)]
    exact h

/-- Counterexample for C8 as frozen: a decoded model output carrying its
own `error` key is returned as the success variant, which then contains an
`error` field. -/
theorem error_key_in_success_cex :
    match_symptom zero_hit_backend gen_error_key "sym" ""
        = inject_result "sym" "" [("error", JsonVal.str "oops")] ∧
    py_lookup (match_symptom zero_hit_backend gen_error_key "sym" "") "error"
        = some (JsonVal.str "oops") :=
  ⟨rfl, rfl⟩

/-- Witness for C8: a decoded output without an `error` key gives a
success variant without one. -/
theorem error_field_discrimination_witness :
    py_lookup (inject_result "sym" "det" [("ctcae_term", JsonVal.str "Nausea")]) "error" = none :=
  error_field_discrimination.2.2.1 "sym" "det" [("ctcae_term", JsonVal.str "Nausea")] rfl

/-- C10 (amended). With empty input details, `match_symptom` adds no
`details` key to the success variant — the key appears there only when the
decoded model output itself carried one — while both failure variants
always bind `details`, to null when details are empty; with non-empty
details every variant binds `details` to the given value. -/
theorem details_key_semantics :
    (∀ symptom kvs, py_lookup kvs "details" = none →
       py_lookup (inject_result symptom "" kvs) "details" = none) ∧
    (∀ symptom details kvs, details ≠ "" →
       py_lookup (inject_result symptom details kvs) "details" = some (JsonVal.str details)) ∧
    (∀ symptom details raw,
       py_lookup (parse_failure symptom details raw) "details" = some (details_or_none details)) ∧
    (∀ symptom details msg,
       py_lookup (gen_failure symptom details msg) "details" = some (details_or_none details)) ∧
    details_or_none "" = JsonVal.null ∧
    (∀ details, details ≠ "" → details_or_none details = JsonVal.str details) := by
  refine ⟨?_, inject_result_details, fun _ _ _ => rfl, fun _ _ _ => rfl, rfl, ?_⟩
  · intro symptom kvs h
    simp only [inject_result]
    rw [if_neg (fun hd => hd rfl)]
    rw [py_lookup_dict_set_ne _ _ _ _ (by decide)]
    exact h
  · intro details h
    simp only [details_or_none]
    rw [if_pos h]

/-- Counterexample for C10 as frozen: with empty input details, a decoded
model output carrying its own `details` key leaves that key in the success
variant. -/
theorem details_key_from_model_cex :
    match_symptom zero_hit_backend gen_details_key "sym" ""
        = inject_result "sym" "" [("details", JsonVal.str "x")] ∧
    py_lookup (match_symptom zero_hit_backend gen_details_key "sym" "") "details"
        = some (JsonVal.str "x") ∧
    some (JsonVal.str "x") ≠ (none : Option JsonVal) :=
  ⟨rfl, rfl, by simp⟩

/-- Witness for C10: empty details and a decoded output without a
`details` key give a success variant without one. -/
theorem details_key_semantics_witness :
    py_lookup (inject_result "sym" "" [("grade", JsonVal.str "2")]) "details" = none :=
  details_key_semantics.1 "sym" [("grade", JsonVal.str "2")] rfl

/-- The term document is tagged `term`. -/
theorem term_doc_doc_type (t : TermRec) :
    meta_get (term_doc t).metadata "doc_type" = some "term" := rfl

/-- Every built grade document is tagged `grade_description`. -/
theorem grade_doc_doc_type (t : TermRec) (g : GradeRec) (d : Document)
    (h : grade_doc t g = some d) :
    meta_get d.metadata "doc_type" = some "grade_description" := by
  simp only [grade_doc] at h
  split at h
  · cases h
    rfl
  · cases h

/-- With truthy grade numbers, the grade documents are exactly one per
grade entry with non-empty description. -/
theorem filterMap_grade_length (t : TermRec) (gs : List GradeRec)
    (h : ∀ g ∈ gs, g.grade ≠ "") :
    (gs.filterMap (grade_doc t)).length
      = (gs.filter (fun g => g.description ≠ "")).length := by
  induction gs with
  | nil => rfl
  | cons g gs ih =>
      have hg : g.grade ≠ "" := h g (List.mem_cons_self g gs)
      have ih' := ih (fun x hx => h x (List.mem_cons_of_mem g hx))
      by_cases hd : g.description = ""
      · simp [List.filterMap_cons, List.filter_cons, grade_doc, hg, hd, ih']
      · simp [List.filterMap_cons, List.filter_cons, grade_doc, hg, hd, ih']

/-- No grade document passes the `term` filter. -/
theorem grade_docs_filter_term (t : TermRec) :
    (t.grades.filterMap (grade_doc t)).filter
        (fun d => meta_get d.metadata "doc_type" = some "term") = [] := by
  rw [List.filter_eq_nil_iff]
  intro d hd
  obtain ⟨g, _, hgd⟩ := List.mem_filterMap.mp hd
  simp [grade_doc_doc_type t g d hgd]

/-- Every grade document passes the `grade_description` filter. -/
theorem grade_docs_filter_grade (t : TermRec) :
    (t.grades.filterMap (grade_doc t)).filter
        (fun d => meta_get d.metadata "doc_type" = some "grade_description")
      = t.grades.filterMap (grade_doc t) := by
  rw [List.filter_eq_self]
  intro d hd
  obtain ⟨g, _, hgd⟩ := List.mem_filterMap.mp hd
  simp [grade_doc_doc_type t g d hgd]

/-- C3. For a term record with a truthy name whose grade entries carry the
truthy grade numbers ingestion guarantees, the Indexer builds exactly one
document plus one per grade with non-empty description; exactly one of them
is a `term` document and the others are `grade_description` documents;
grades with empty description yield no document. -/
theorem indexer_document_counts (t : TermRec)
    (hname : t.ctcae_term ≠ "")
    (hg : ∀ g ∈ t.grades, g.grade ≠ "") :
    (docs_for_term t).length
        = 1 + (t.grades.filter (fun g => g.description ≠ "")).length ∧
    ((docs_for_term t).filter
        (fun d => meta_get d.metadata "doc_type" = some "term")).length = 1 ∧
    ((docs_for_term t).filter
        (fun d => meta_get d.metadata "doc_type" = some "grade_description")).length
        = (t.grades.filter (fun g => g.description ≠ "")).length ∧
    (∀ g ∈ t.grades, g.description = "" → grade_doc t g = none) := by
  have hdocs : docs_for_term t = term_doc t :: t.grades.filterMap (grade_doc t) := by
    simp [docs_for_term, hname]
  refine ⟨?_, ?_, ?_, fun g _ hd => by simp [grade_doc, hd]⟩
  · rw [hdocs]
    simp only [List.length_cons]
    rw [filterMap_grade_length t t.grades hg]
    omega
  · rw [hdocs, List.filter_cons]
    simp [term_doc_doc_type, grade_docs_filter_term t]
  · rw [hdocs, List.filter_cons]
    simp only [term_doc_doc_type]
    rw [if_neg (by simp)]
    rw [grade_docs_filter_grade t]
    exact filterMap_grade_length t t.grades hg

/-- Witness for C3 at a concrete record with two non-empty and one empty
grade description. -/
theorem indexer_document_counts_witness :
    (docs_for_term sample_term).length
      = 1 + (sample_term.grades.filter (fun g => g.description ≠ "")).length :=
  (indexer_document_counts sample_term (by decide) (by decide)).1

/-- C9. Over a deterministic backend whose reset step always rebuilds the
same store state, two successive indexing runs with reset on the same term
records return the same document count. -/
theorem index_reset_count_idempotent {σ : Type} (ops : StoreOps σ) (s : σ)
    (terms : List TermRec)
    (hreset : ∀ a b : σ, setup_vector_store_reset ops a = setup_vector_store_reset ops b) :
    (index_with_reset ops (index_with_reset ops s terms).2 terms).1
      = (index_with_reset ops s terms).1 := by
  unfold index_with_reset
  rw [hreset ((add_terms_to_vectorstore ops (setup_vector_store_reset ops s) terms).2) s]

/-- Witness for C9 at the in-memory list backend, whose reset always
rebuilds the one-document initial state. -/
theorem index_reset_count_idempotent_witness :
    (index_with_reset list_store_ops
        (index_with_reset list_store_ops [] [sample_term]).2 [sample_term]).1
      = (index_with_reset list_store_ops [] [sample_term]).1 :=
  index_reset_count_idempotent list_store_ops [] [sample_term] (fun _ _ => rfl)

end CTCAE
